import Mathlib

/-!
Shallow embedding of `main.py`, a CLI utility that manages assistant
resources on a remote voice-AI API.  The program resolves credentials from
the environment and positional arguments, dispatches to one of three
operations (List, Get, UpdateIdle), performs at most one HTTP request, and
maps the outcome to an exit code.

The embedding models Python values decoded from JSON with an inductive
`Json` type, Python truthiness with `pyTruthy`, and each operation as a
pure function from its inputs and the (single) HTTP response to an
`Outcome`: the exit code, the lines printed, and the requests issued.
An unhandled Python exception is modelled by `Outcome.crash`.
-/

namespace VapiIdle

/-- A JSON value as decoded by `resp.json()` in Python (dicts keep field
order, so objects are association lists). -/
inductive Json where
  | null : Json
  | bool : Bool → Json
  | num : Int → Json
  | str : String → Json
  | arr : List Json → Json
  | obj : List (String × Json) → Json

/-- First binding of `key` in an association list; models Python
`dict.get(key)` returning `None` when absent (`none` here). -/
def lookupField : List (String × Json) → String → Option Json
  | [], _ => none
  | (k, v) :: rest, key => if k = key then some v else lookupField rest key

/-- Python truthiness of a JSON-decoded value: `None`, `False`, `0`, `""`,
`[]` and `{}` are falsy, everything else truthy. -/
def pyTruthy : Json → Bool
  | Json.null => false
  | Json.bool b => b
  | Json.num n => n != 0
  | Json.str s => s != ""
  | Json.arr [] => false
  | Json.arr (_ :: _) => true
  | Json.obj [] => false
  | Json.obj (_ :: _) => true

/-- Python `a or b` where `a` is the result of a `dict.get` (absent key =
`none` = Python `None`, falsy). -/
def jsonOr (a : Option Json) (b : Json) : Json :=
  match a with
  | some v => if pyTruthy v then v else b
  | none => b

mutual

/-- Python `repr` of a JSON-decoded value (as used inside f-strings for
containers). -/
def pyRepr : Json → String
  | Json.null => "None"
  | Json.bool true => "True"
  | Json.bool false => "False"
  | Json.num n => toString n
  | Json.str s => "\x27" ++ s ++ "\x27"
  | Json.arr xs => "[" ++ pyReprList xs ++ "]"
  | Json.obj fs => "\x7b" ++ pyReprObj fs ++ "\x7d"

/-- `", ".join(repr(x) for x in xs)`. -/
def pyReprList : List Json → String
  | [] => ""
  | [x] => pyRepr x
  | x :: y :: xs => pyRepr x ++ ", " ++ pyReprList (y :: xs)

/-- `", ".join(repr(k) + ": " + repr(v) for (k, v) in fs)`. -/
def pyReprObj : List (String × Json) → String
  | [] => ""
  | [(k, v)] => "\x27" ++ k ++ "\x27: " ++ pyRepr v
  | (k, v) :: g :: fs => "\x27" ++ k ++ "\x27: " ++ pyRepr v ++ ", " ++ pyReprObj (g :: fs)

end

/-- Python `str` of a JSON-decoded value, as interpolated by an f-string:
strings are unquoted, containers use `repr`. -/
def pyStr : Json → String
  | Json.str s => s
  | v => pyRepr v

/-- Python iteration `for x in v` over a JSON-decoded value: lists yield
elements, strings yield one-character strings, dicts yield their keys;
anything else raises `TypeError` (`none`). -/
def iterItems : Json → Option (List Json)
  | Json.arr xs => some xs
  | Json.str s => some (s.data.map (fun c => Json.str (String.mk [c])))
  | Json.obj fs => some (fs.map (fun kv => Json.str kv.1))
  | _ => none

/-- HTTP method of an outbound request. -/
inductive Method where
  | get : Method
  | patch : Method
deriving DecidableEq

/-- An outbound HTTP request as issued through the `requests` library. -/
structure Request where
  method : Method
  url : String
  headers : List (String × String)
  body : Option Json

/-- The HTTP response the single outbound call receives: status code, raw
body text, and the value `resp.json()` parses from it. -/
structure Response where
  status : Nat
  text : String
  json : Json

/-- Observable outcome of a run: either a normal return with an exit code,
the lines printed, and the requests issued, or an unhandled Python
exception (`crash`) with whatever was printed and issued before it. -/
inductive Outcome where
  | exit : Nat → List String → List Request → Outcome
  | crash : List String → List Request → Outcome

/-- Exit code of an outcome; `none` for an unhandled exception. -/
def Outcome.exitCode? : Outcome → Option Nat
  | Outcome.exit c _ _ => some c
  | Outcome.crash _ _ => none

/-- Lines printed during the run (also the partial output before a crash). -/
def Outcome.output : Outcome → List String
  | Outcome.exit _ o _ => o
  | Outcome.crash o _ => o

/-- Requests issued during the run. -/
def Outcome.requests : Outcome → List Request
  | Outcome.exit _ _ r => r
  | Outcome.crash _ r => r

/-- Python `s.rstrip(c)` on character lists. -/
def rstripChars (cs : List Char) : List Char :=
  (cs.reverse.dropWhile (fun c => c = '/')).reverse

/-- Python `api_url.rstrip("/")`: strip every trailing slash. -/
def rstripSlash (s : String) : String :=
  String.mk (rstripChars s.data)

/-- The error line `print(f"Error {resp.status_code}: {resp.text}")`. -/
def errorLine (resp : Response) : String :=
  "Error " ++ toString resp.status ++ ": " ++ resp.text

/-- The GET request built by `list_assistants` (note the singular
`/assistant` path). -/
def listRequest (api_key api_url : String) : Request :=
  Request.mk Method.get (rstripSlash api_url ++ "/assistant")
    [("Authorization", "Bearer " ++ api_key)] none

/-- `assistant.get(key) if isinstance(assistant, dict) else
getattr(assistant, key, None)`: for JSON-decoded values only dicts have
these fields, everything else gives `None`. -/
def attrGet (assistant : Json) (key : String) : Json :=
  match assistant with
  | Json.obj fs => (lookupField fs key).getD Json.null
  | _ => Json.null

/-- The three lines printed per assistant entry by the List loop. -/
def renderAssistantEntry (assistant : Json) : List String :=
  ["Name: " ++ pyStr (attrGet assistant "name"),
   "ID:   " ++ pyStr (attrGet assistant "id"),
   String.mk (List.replicate 40 '-')]

/-- `data if isinstance(data, list) else data.get("assistants") or
data.get("data") or []`; `none` models the `AttributeError` raised when
`data` is neither a list nor a dict. -/
def selectAssistants : Json → Option Json
  | Json.arr xs => some (Json.arr xs)
  | Json.obj fs =>
      some (jsonOr (lookupField fs "assistants")
        (jsonOr (lookupField fs "data") (Json.arr [])))
  | _ => none

/-- `list_assistants(api_key=..., api_url=...)` given the response the GET
receives. -/
def list_assistants (api_key api_url : String) (resp : Response) : Outcome :=
  let req := listRequest api_key api_url
  if resp.status ≠ 200 then
    Outcome.exit 1 [errorLine resp] [req]
  else
    match selectAssistants resp.json with
    | none => Outcome.crash [] [req]
    | some sel =>
      match iterItems sel with
      | none => Outcome.crash ["\n=== Your Assistants ==="] [req]
      | some items =>
        Outcome.exit 0
          ("\n=== Your Assistants ===" :: (items.map renderAssistantEntry).flatten)
          [req]

/-- The GET request built by `get_assistant`. -/
def getRequest (api_key api_url assistant_id : String) : Request :=
  Request.mk Method.get (rstripSlash api_url ++ "/assistant/" ++ assistant_id)
    [("Authorization", "Bearer " ++ api_key)] none

/-- `assistant.get("messagePlan", {})`. -/
def messagePlanOf (fs : List (String × Json)) : Json :=
  (lookupField fs "messagePlan").getD (Json.obj [])

/-- The four detail lines printed by `get_assistant` before the idle-message
inspection (silence timeout defaults to 30 when absent). -/
def detailBaseLines (fs : List (String × Json)) : List String :=
  ["\n=== Assistant Details ===",
   "Name: " ++ pyStr ((lookupField fs "name").getD Json.null),
   "ID: " ++ pyStr ((lookupField fs "id").getD Json.null),
   "Silence Timeout: " ++ pyStr ((lookupField fs "silenceTimeoutSeconds").getD (Json.num 30))
     ++ " seconds"]

/-- `get_assistant(api_key=..., api_url=..., assistant_id=...)` given the
response the GET receives.  A non-dict response body, or a non-dict
`messagePlan` value, crashes at the first attribute access on it, exactly
where the Python raises. -/
def get_assistant (api_key api_url assistant_id : String) (resp : Response) : Outcome :=
  let req := getRequest api_key api_url assistant_id
  if resp.status ≠ 200 then
    Outcome.exit 1 [errorLine resp] [req]
  else
    match resp.json with
    | Json.obj fs =>
      match messagePlanOf fs with
      | Json.obj mfs =>
        if pyTruthy ((lookupField mfs "idleMessages").getD Json.null) then
          Outcome.exit 0
            (detailBaseLines fs ++
              ["\nIdle Messages Configuration:",
               "  Messages: " ++ pyStr ((lookupField mfs "idleMessages").getD Json.null),
               "  Timeout: " ++ pyStr ((lookupField mfs "idleTimeoutSeconds").getD Json.null)
                 ++ " seconds",
               "  Max Count: " ++ pyStr ((lookupField mfs "idleMessageMaxSpokenCount").getD Json.null)])
            [req]
        else
          Outcome.exit 0
            (detailBaseLines fs ++ ["\n⚠️  No idle messages configured"])
            [req]
      | _ => Outcome.crash (detailBaseLines fs) [req]
    | _ => Outcome.crash ["\n=== Assistant Details ==="] [req]

/-- The fixed, hardcoded PATCH body `update_data` of
`update_assistant_idle_messages`. -/
def updatePayload : Json :=
  Json.obj
    [("messagePlan", Json.obj
        [("idleMessages", Json.arr [Json.str "Are you still there?"]),
         ("idleTimeoutSeconds", Json.num 10),
         ("idleMessageMaxSpokenCount", Json.num 2),
         ("idleMessageResetCountOnUserSpeechEnabled", Json.bool true)]),
     ("silenceTimeoutSeconds", Json.num 30)]

/-- The PATCH request built by `update_assistant_idle_messages`. -/
def updateRequest (api_key api_url assistant_id : String) : Request :=
  Request.mk Method.patch (rstripSlash api_url ++ "/assistant/" ++ assistant_id)
    [("Authorization", "Bearer " ++ api_key), ("Content-Type", "application/json")]
    (some updatePayload)

/-- `update_assistant_idle_messages(...)` given the response the PATCH
receives. -/
def update_assistant_idle_messages (api_key api_url assistant_id : String)
    (resp : Response) : Outcome :=
  let req := updateRequest api_key api_url assistant_id
  let firstLine := "\nUpdating assistant " ++ assistant_id ++ " with idle messages..."
  if resp.status ≠ 200 then
    Outcome.exit 1 [firstLine, errorLine resp] [req]
  else
    Outcome.exit 0
      [firstLine, "✅ Successfully updated assistant!",
       "Timeline: 10s → First prompt, 20s → Second prompt, 30s → End call"]
      [req]

/-- The environment variables `main` reads (absent = `none`). -/
structure Env where
  vapiApiKey : Option String
  vapiApiUrl : Option String
  vapiAssistantId : Option String
  vapiList : Option String
deriving DecidableEq

/-- Python `a or b` on optional strings, where `None` and `""` are falsy
and the second operand is returned unchanged when the first is falsy. -/
def pyOr (a b : Option String) : Option String :=
  match a with
  | some s => if s = "" then b else some s
  | none => b

/-- Truthiness of an optional string (Python `if not x`). -/
def optTruthy : Option String → Bool
  | some s => s ≠ ""
  | none => false

/-- `os.environ.get("VAPI_API_KEY") or (sys.argv[1] if len(sys.argv) > 1
else None)`; `argv` includes the program name at index 0. -/
def resolveApiKey (env : Env) (argv : List String) : Option String :=
  pyOr env.vapiApiKey (argv.get? 1)

/-- `os.environ.get("VAPI_API_URL", "https://api.vapi.ai")`. -/
def resolveApiUrl (env : Env) : String :=
  env.vapiApiUrl.getD "https://api.vapi.ai"

/-- `os.environ.get("VAPI_ASSISTANT_ID") or (sys.argv[2] if len(sys.argv) >
2 else None)`. -/
def resolveAssistantId (env : Env) (argv : List String) : Option String :=
  pyOr env.vapiAssistantId (argv.get? 2)

/-- `os.environ.get("VAPI_LIST") in {"1", "true", "TRUE"}`. -/
def vapiListTruthy : Option String → Bool
  | some s => s = "1" || s = "true" || s = "TRUE"
  | none => false

/-- The text printed by `usage()` (a single `print` call). -/
def usageText : String :=
  "Usage:\n  List assistants:\n    VAPI_API_KEY=... python main.py --list\n    VAPI_API_KEY=... VAPI_LIST=1 python main.py\n  Update assistant with idle messages:\n    VAPI_API_KEY=... VAPI_ASSISTANT_ID=... python main.py --update-idle\n  Get specific assistant details:\n    VAPI_API_KEY=... VAPI_ASSISTANT_ID=... python main.py --get"

/-- The decision `main` reaches before any network activity. -/
inductive Op where
  | noKey : Op
  | runList : String → String → Op
  | runGet : String → String → String → Op
  | runUpdateIdle : String → String → String → Op
  | missingIdGet : Op
  | missingIdUpdate : Op
  | usageOnly : Op
deriving DecidableEq

/-- The ordered flag inspection of `main`: the api-key guard, then the
List condition (`--list` flag, truthy `VAPI_LIST`, or no assistant_id),
then `--get`, then `--update-idle`, then the implicit Get default, then
usage.  The `missingId` branches mirror the in-source guards even though
the List condition already captured every missing assistant_id. -/
def dispatch (env : Env) (argv : List String) : Op :=
  match resolveApiKey env argv with
  | none => Op.noKey
  | some api_key =>
    if api_key = "" then Op.noKey
    else if argv.contains "--list" || vapiListTruthy env.vapiList
        || !optTruthy (resolveAssistantId env argv) then
      Op.runList api_key (resolveApiUrl env)
    else if argv.contains "--get" then
      match resolveAssistantId env argv with
      | some aid =>
          if aid = "" then Op.missingIdGet
          else Op.runGet api_key (resolveApiUrl env) aid
      | none => Op.missingIdGet
    else if argv.contains "--update-idle" then
      match resolveAssistantId env argv with
      | some aid =>
          if aid = "" then Op.missingIdUpdate
          else Op.runUpdateIdle api_key (resolveApiUrl env) aid
      | none => Op.missingIdUpdate
    else
      match resolveAssistantId env argv with
      | some aid =>
          if aid = "" then Op.usageOnly
          else Op.runGet api_key (resolveApiUrl env) aid
      | none => Op.usageOnly

/-- One full invocation of `main`, given the environment, `sys.argv`
(program name at index 0), and the response the single outbound request
receives (unused when no request is made). -/
def mainRun (env : Env) (argv : List String) (resp : Response) : Outcome :=
  match dispatch env argv with
  | Op.noKey => Outcome.exit 2 ["❌ API key required", usageText] []
  | Op.runList k u => list_assistants k u resp
  | Op.runGet k u aid => get_assistant k u aid resp
  | Op.runUpdateIdle k u aid => update_assistant_idle_messages k u aid resp
  | Op.missingIdGet => Outcome.exit 2 ["❌ VAPI_ASSISTANT_ID required"] []
  | Op.missingIdUpdate =>
      Outcome.exit 2
        ["❌ VAPI_ASSISTANT_ID required",
         "First run with --list to find your assistant ID"] []
  | Op.usageOnly => Outcome.exit 2 [usageText] []

/-! ## Helper lemmas -/

/-- Whatever the response, `list_assistants` issues exactly its one GET. -/
theorem list_assistants_requests (api_key api_url : String) (resp : Response) :
    (list_assistants api_key api_url resp).requests = [listRequest api_key api_url] := by
  unfold list_assistants
  split
  · rfl
  · split
    · rfl
    · split <;> rfl

/-- Whatever the response, `get_assistant` issues exactly its one GET. -/
theorem get_assistant_requests (api_key api_url assistant_id : String) (resp : Response) :
    (get_assistant api_key api_url assistant_id resp).requests
      = [getRequest api_key api_url assistant_id] := by
  unfold get_assistant
  split
  · rfl
  · split
    · split
      · split <;> rfl
      · rfl
    · rfl

/-- Whatever the response, `update_assistant_idle_messages` issues exactly
its one PATCH. -/
theorem update_requests (api_key api_url assistant_id : String) (resp : Response) :
    (update_assistant_idle_messages api_key api_url assistant_id resp).requests
      = [updateRequest api_key api_url assistant_id] := by
  unfold update_assistant_idle_messages
  split <;> rfl

/-- Two strings whose character data start with different characters are
different, whatever follows the prefix on the left. -/
theorem append_ne_of_head (p x q : String) (c d : Char) (cs ds : List Char)
    (hp : p.data = c :: cs) (hq : q.data = d :: ds) (hcd : c ≠ d) : p ++ x ≠ q := by
  intro e
  have hdata : (p ++ x).data = q.data := by rw [e]
  rw [String.data_append, hp, hq] at hdata
  injection hdata with h1 _
  exact hcd h1

/-- String concatenation is associative. -/
theorem string_append_assoc (a b c : String) : a ++ b ++ c = a ++ (b ++ c) := by
  apply String.ext
  rw [String.data_append, String.data_append, String.data_append, String.data_append,
    List.append_assoc]

end VapiIdle

namespace VapiIdle

/-! ## Claims -/

/-- C3: for every invocation of the UpdateIdle operation, the single
outbound request is a PATCH to `{base}/assistant/{assistant_id}` whose body
is exactly the fixed payload (one idle message "Are you still there?",
idle timeout 10, max spoken count 2, reset-on-speech true, silence timeout
30), independent of the response and of all other inputs. -/
theorem update_body_is_fixed_payload (api_key api_url assistant_id : String)
    (resp : Response) :
    (update_assistant_idle_messages api_key api_url assistant_id resp).requests
      = [updateRequest api_key api_url assistant_id] ∧
    (updateRequest api_key api_url assistant_id).method = Method.patch ∧
    (updateRequest api_key api_url assistant_id).url
      = rstripSlash api_url ++ "/assistant/" ++ assistant_id ∧
    (updateRequest api_key api_url assistant_id).body = some (Json.obj
      [("messagePlan", Json.obj
          [("idleMessages", Json.arr [Json.str "Are you still there?"]),
           ("idleTimeoutSeconds", Json.num 10),
           ("idleMessageMaxSpokenCount", Json.num 2),
           ("idleMessageResetCountOnUserSpeechEnabled", Json.bool true)]),
       ("silenceTimeoutSeconds", Json.num 30)]) :=
  ⟨update_requests api_key api_url assistant_id resp, rfl, rfl, rfl⟩

/-- C5: whenever the api key resolves to nothing truthy (absent or empty
in both the environment and the first positional argument), `main` prints
the error and the usage text, exits with code 2, and issues no request. -/
theorem missing_api_key_exits_2 (env : Env) (argv : List String) (resp : Response)
    (h : optTruthy (resolveApiKey env argv) = false) :
    mainRun env argv resp = Outcome.exit 2 ["❌ API key required", usageText] [] := by
  unfold mainRun dispatch
  rcases hk : resolveApiKey env argv with _ | key
  · rfl
  · rw [hk] at h
    simp only [optTruthy, ne_eq, decide_not, Bool.not_eq_false', decide_eq_true_eq] at h
    subst h
    rfl

/-- C5 witness: with every source empty, the run exits 2 with the error
and usage output and no request. -/
theorem missing_api_key_exits_2_witness :
    optTruthy (resolveApiKey (Env.mk none none none none) ["main.py"]) = false ∧
    mainRun (Env.mk none none none none) ["main.py"] (Response.mk 200 "" Json.null)
      = Outcome.exit 2 ["❌ API key required", usageText] [] :=
  ⟨rfl, missing_api_key_exits_2 (Env.mk none none none none) ["main.py"]
    (Response.mk 200 "" Json.null) rfl⟩

/-- C7: the three response shapes (wrapped in `assistants`, wrapped in
`data`, bare sequence) produce the identical List outcome, and its
displayed summary shows name `A` and id `1`. -/
theorem list_shape_independent :
    list_assistants "k" "https://api.vapi.ai" (Response.mk 200 ""
        (Json.obj [("assistants", Json.arr [Json.obj [("name", Json.str "A"), ("id", Json.str "1")]])]))
      = list_assistants "k" "https://api.vapi.ai" (Response.mk 200 ""
        (Json.obj [("data", Json.arr [Json.obj [("name", Json.str "A"), ("id", Json.str "1")]])])) ∧
    list_assistants "k" "https://api.vapi.ai" (Response.mk 200 ""
        (Json.obj [("data", Json.arr [Json.obj [("name", Json.str "A"), ("id", Json.str "1")]])]))
      = list_assistants "k" "https://api.vapi.ai" (Response.mk 200 ""
        (Json.arr [Json.obj [("name", Json.str "A"), ("id", Json.str "1")]])) ∧
    (list_assistants "k" "https://api.vapi.ai" (Response.mk 200 ""
        (Json.arr [Json.obj [("name", Json.str "A"), ("id", Json.str "1")]]))).output
      = ["\n=== Your Assistants ===", "Name: A", "ID:   1",
         "----------------------------------------"] :=
  ⟨rfl, rfl, rfl⟩

/-- C10: with no environment variables and argv `[--list]`, the flag token
itself is resolved as the api key, the missing-key check is passed, and a
GET request is issued (bearing `Bearer --list`) instead of exiting with
code 2. -/
theorem flag_token_resolved_as_api_key :
    resolveApiKey (Env.mk none none none none) ["main.py", "--list"] = some "--list" ∧
    mainRun (Env.mk none none none none) ["main.py", "--list"] (Response.mk 200 "" (Json.arr []))
      = Outcome.exit 0 ["\n=== Your Assistants ==="]
          [listRequest "--list" "https://api.vapi.ai"] ∧
    (mainRun (Env.mk none none none none) ["main.py", "--list"]
        (Response.mk 200 "" (Json.arr []))).requests
      = [Request.mk Method.get "https://api.vapi.ai/assistant"
          [("Authorization", "Bearer --list")] none] ∧
    (mainRun (Env.mk none none none none) ["main.py", "--list"]
        (Response.mk 200 "" (Json.arr []))).exitCode? = some 0 :=
  ⟨rfl, rfl, rfl, rfl⟩

/-- C1 counterexample: argv `[--get]` with `VAPI_API_KEY=k` and no
assistant id resolved: the claim expects exit code 2 and no network call,
but the run performs the List GET and exits with the List exit code
(here 1 for a 404), because the missing assistant id triggers the List
branch before the `--get` branch is ever examined. -/
theorem get_without_id_counterexample :
    List.contains ["main.py", "--get"] "--get" = true ∧
    resolveAssistantId (Env.mk (some "k") none none none) ["main.py", "--get"] = none ∧
    optTruthy (resolveApiKey (Env.mk (some "k") none none none) ["main.py", "--get"]) = true ∧
    mainRun (Env.mk (some "k") none none none) ["main.py", "--get"]
        (Response.mk 404 "not found" Json.null)
      = Outcome.exit 1 ["Error 404: not found"] [listRequest "k" "https://api.vapi.ai"] :=
  ⟨rfl, rfl, rfl, rfl⟩

/-- C1 amended: when `--get` or `--update-idle` is present, the api key is
resolved, and no assistant id is resolved, the run dispatches to List (the
missing assistant id satisfies the List condition, evaluated first) and
issues the List GET; the exit-code-2 guard inside the flag branches is
never reached. -/
theorem get_without_id_runs_list (env : Env) (argv : List String) (resp : Response)
    (hkey : optTruthy (resolveApiKey env argv) = true)
    (hflag : argv.contains "--get" = true ∨ argv.contains "--update-idle" = true)
    (hid : optTruthy (resolveAssistantId env argv) = false) :
    ∃ k, resolveApiKey env argv = some k ∧
      dispatch env argv = Op.runList k (resolveApiUrl env) ∧
      (mainRun env argv resp).requests = [listRequest k (resolveApiUrl env)] := by
  rcases hk : resolveApiKey env argv with _ | key
  · rw [hk] at hkey
    simp [optTruthy] at hkey
  · refine ⟨key, rfl, ?_, ?_⟩
    · rw [hk] at hkey
      simp only [optTruthy, ne_eq, decide_not, Bool.not_eq_true', decide_eq_false_iff_not] at hkey
      unfold dispatch
      rw [hk]
      dsimp only
      rw [if_neg hkey, if_pos (by simp [hid])]
    · have hd : dispatch env argv = Op.runList key (resolveApiUrl env) := by
        rw [hk] at hkey
        simp only [optTruthy, ne_eq, decide_not, Bool.not_eq_true', decide_eq_false_iff_not] at hkey
        unfold dispatch
        rw [hk]
        dsimp only
        rw [if_neg hkey, if_pos (by simp [hid])]
      unfold mainRun
      rw [hd]
      exact list_assistants_requests key (resolveApiUrl env) resp

/-- C1 amended witness: a concrete run with `--get`, a resolved key and no
assistant id dispatches to List and issues the List GET. -/
theorem get_without_id_runs_list_witness :
    optTruthy (resolveApiKey (Env.mk (some "k") none none none) ["main.py", "--get"]) = true ∧
    (∃ k, resolveApiKey (Env.mk (some "k") none none none) ["main.py", "--get"] = some k ∧
      dispatch (Env.mk (some "k") none none none) ["main.py", "--get"]
        = Op.runList k (resolveApiUrl (Env.mk (some "k") none none none)) ∧
      (mainRun (Env.mk (some "k") none none none) ["main.py", "--get"]
          (Response.mk 200 "" (Json.arr []))).requests
        = [listRequest k (resolveApiUrl (Env.mk (some "k") none none none))]) :=
  ⟨rfl, get_without_id_runs_list (Env.mk (some "k") none none none) ["main.py", "--get"]
    (Response.mk 200 "" (Json.arr [])) rfl (Or.inl rfl) rfl⟩

/-- C2 counterexample: status 201 is a 2xx success status, yet all three
operations treat it as an error: they print the status and body and return
exit code 1, contradicting the claim that any 2xx yields exit code 0. -/
theorem status_201_counterexample :
    (200 ≤ 201 ∧ 201 < 300) ∧
    list_assistants "k" "u" (Response.mk 201 "Created" Json.null)
      = Outcome.exit 1 ["Error 201: Created"] [listRequest "k" "u"] ∧
    get_assistant "k" "u" "a" (Response.mk 201 "Created" Json.null)
      = Outcome.exit 1 ["Error 201: Created"] [getRequest "k" "u" "a"] ∧
    update_assistant_idle_messages "k" "u" "a" (Response.mk 201 "Created" Json.null)
      = Outcome.exit 1 ["\nUpdating assistant a with idle messages...", "Error 201: Created"]
          [updateRequest "k" "u" "a"] :=
  ⟨⟨by decide, by decide⟩, rfl, rfl, rfl⟩

/-- C2 amended: each operation returns exit code 0 exactly on HTTP status
200 (for List and Get, provided the success body has a shape the code can
traverse), and on any other status — including other 2xx codes, and in
particular 404 and 401 — prints the literal status code with the raw body
and returns exit code 1. -/
theorem status_200_exact (api_key api_url assistant_id : String) (resp : Response) :
    (resp.status ≠ 200 →
      list_assistants api_key api_url resp
        = Outcome.exit 1 [errorLine resp] [listRequest api_key api_url] ∧
      get_assistant api_key api_url assistant_id resp
        = Outcome.exit 1 [errorLine resp] [getRequest api_key api_url assistant_id] ∧
      update_assistant_idle_messages api_key api_url assistant_id resp
        = Outcome.exit 1
            ["\nUpdating assistant " ++ assistant_id ++ " with idle messages...", errorLine resp]
            [updateRequest api_key api_url assistant_id]) ∧
    (resp.status = 200 →
      (update_assistant_idle_messages api_key api_url assistant_id resp).exitCode? = some 0 ∧
      (∀ sel items, selectAssistants resp.json = some sel → iterItems sel = some items →
        (list_assistants api_key api_url resp).exitCode? = some 0) ∧
      (∀ fs mfs, resp.json = Json.obj fs → messagePlanOf fs = Json.obj mfs →
        (get_assistant api_key api_url assistant_id resp).exitCode? = some 0)) := by
  constructor
  · intro h
    refine ⟨?_, ?_, ?_⟩
    · unfold list_assistants
      rw [if_pos h]
    · unfold get_assistant
      rw [if_pos h]
    · unfold update_assistant_idle_messages
      rw [if_pos h]
  · intro h
    refine ⟨?_, ?_, ?_⟩
    · unfold update_assistant_idle_messages
      rw [if_neg (by simp [h])]
      rfl
    · intro sel items hsel hitems
      unfold list_assistants
      rw [if_neg (by simp [h]), hsel]
      dsimp only
      rw [hitems]
      rfl
    · intro fs mfs hfs hmp
      unfold get_assistant
      rw [if_neg (by simp [h]), hfs]
      dsimp only
      rw [hmp]
      dsimp only
      split <;> rfl

/-- C2 amended witness: a 404 response yields exit 1 with the printed
status and body for all three operations, and a 200 PATCH response yields
exit 0. -/
theorem status_200_exact_witness :
    (list_assistants "k" "u" (Response.mk 404 "nf" Json.null)
        = Outcome.exit 1 [errorLine (Response.mk 404 "nf" Json.null)] [listRequest "k" "u"] ∧
      get_assistant "k" "u" "a" (Response.mk 404 "nf" Json.null)
        = Outcome.exit 1 [errorLine (Response.mk 404 "nf" Json.null)] [getRequest "k" "u" "a"] ∧
      update_assistant_idle_messages "k" "u" "a" (Response.mk 404 "nf" Json.null)
        = Outcome.exit 1
            ["\nUpdating assistant " ++ "a" ++ " with idle messages...",
             errorLine (Response.mk 404 "nf" Json.null)]
            [updateRequest "k" "u" "a"]) ∧
    (update_assistant_idle_messages "k" "u" "a" (Response.mk 200 "ok" Json.null)).exitCode?
      = some 0 :=
  ⟨(status_200_exact "k" "u" "a" (Response.mk 404 "nf" Json.null)).1 (by decide),
   ((status_200_exact "k" "u" "a" (Response.mk 200 "ok" Json.null)).2 rfl).1⟩

/-- C6 counterexample: an object whose `assistants` field is present (but
empty) and whose `data` field is non-empty: the claim says the present
`assistants` sequence is displayed, but the code falls through to `data`
(Python `or` discards falsy values) and displays its entry. -/
theorem assistants_field_fallthrough_counterexample :
    lookupField [("assistants", Json.arr []),
        ("data", Json.arr [Json.obj [("name", Json.str "A"), ("id", Json.str "1")]])]
        "assistants" = some (Json.arr []) ∧
    selectAssistants (Json.obj [("assistants", Json.arr []),
        ("data", Json.arr [Json.obj [("name", Json.str "A"), ("id", Json.str "1")]])])
      = some (Json.arr [Json.obj [("name", Json.str "A"), ("id", Json.str "1")]]) ∧
    (list_assistants "k" "u" (Response.mk 200 "" (Json.obj [("assistants", Json.arr []),
        ("data", Json.arr [Json.obj [("name", Json.str "A"), ("id", Json.str "1")]])]))).output
      = ["\n=== Your Assistants ===", "Name: A", "ID:   1",
         "----------------------------------------"] :=
  ⟨rfl, rfl, rfl⟩

/-- C6 amended: the assistant sequence is selected by trying, in order, a
bare JSON sequence, else a *truthy* (non-empty) `assistants` field, else a
truthy `data` field, else the empty sequence; a present but empty (or
otherwise falsy) `assistants` field falls through to `data`. -/
theorem select_assistants_order (xs : List Json) (fs : List (String × Json)) :
    selectAssistants (Json.arr xs) = some (Json.arr xs) ∧
    (∀ v, lookupField fs "assistants" = some v → pyTruthy v = true →
       selectAssistants (Json.obj fs) = some v) ∧
    ((lookupField fs "assistants" = none ∨
      (∃ v, lookupField fs "assistants" = some v ∧ pyTruthy v = false)) →
      (∀ w, lookupField fs "data" = some w → pyTruthy w = true →
         selectAssistants (Json.obj fs) = some w) ∧
      ((lookupField fs "data" = none ∨
        (∃ w, lookupField fs "data" = some w ∧ pyTruthy w = false)) →
        selectAssistants (Json.obj fs) = some (Json.arr []))) := by
  refine ⟨rfl, ?_, ?_⟩
  · intro v hv htv
    simp [selectAssistants, jsonOr, hv, htv]
  · intro ha
    have hsel : selectAssistants (Json.obj fs)
        = some (jsonOr (lookupField fs "data") (Json.arr [])) := by
      rcases ha with h | ⟨v, hv, htv⟩
      · simp [selectAssistants, jsonOr, h]
      · simp [selectAssistants, jsonOr, hv, htv]
    constructor
    · intro w hw htw
      rw [hsel]
      simp [jsonOr, hw, htw]
    · intro hd
      rw [hsel]
      rcases hd with h | ⟨w, hw, htw⟩
      · simp [jsonOr, h]
      · simp [jsonOr, hw, htw]

/-- C6 amended witness: with `assistants` present but empty and `data`
non-empty, the selection is the `data` sequence. -/
theorem select_assistants_order_witness :
    lookupField [("assistants", Json.arr []), ("data", Json.arr [Json.str "x"])] "assistants"
      = some (Json.arr []) ∧
    pyTruthy (Json.arr []) = false ∧
    lookupField [("assistants", Json.arr []), ("data", Json.arr [Json.str "x"])] "data"
      = some (Json.arr [Json.str "x"]) ∧
    pyTruthy (Json.arr [Json.str "x"]) = true ∧
    selectAssistants (Json.obj [("assistants", Json.arr []), ("data", Json.arr [Json.str "x"])])
      = some (Json.arr [Json.str "x"]) :=
  ⟨rfl, rfl, rfl, rfl,
    ((select_assistants_order [] [("assistants", Json.arr []), ("data", Json.arr [Json.str "x"])]).2.2
      (Or.inr ⟨Json.arr [], rfl, rfl⟩)).1 (Json.arr [Json.str "x"]) rfl rfl⟩

/-- C4: with a resolved (truthy) api key, `main` dispatches to List exactly
when `--list` is in argv, or `VAPI_LIST` is one of `1`, `true`, `TRUE`, or
no assistant id is resolved; and the List operation issues exactly one GET
to `{base}/assistant` (singular path segment). -/
theorem list_dispatch_iff (env : Env) (argv : List String) (resp : Response) (k : String)
    (hk : resolveApiKey env argv = some k) (hke : k ≠ "") :
    (dispatch env argv = Op.runList k (resolveApiUrl env) ↔
      (argv.contains "--list" = true ∨ vapiListTruthy env.vapiList = true ∨
       optTruthy (resolveAssistantId env argv) = false)) ∧
    (list_assistants k (resolveApiUrl env) resp).requests
      = [listRequest k (resolveApiUrl env)] ∧
    (listRequest k (resolveApiUrl env)).method = Method.get ∧
    (listRequest k (resolveApiUrl env)).url
      = rstripSlash (resolveApiUrl env) ++ "/assistant" := by
  refine ⟨?_, list_assistants_requests k (resolveApiUrl env) resp, rfl, rfl⟩
  constructor
  · intro hd
    by_cases h1 : argv.contains "--list" = true
    · exact Or.inl h1
    by_cases h2 : vapiListTruthy env.vapiList = true
    · exact Or.inr (Or.inl h2)
    by_cases h3 : optTruthy (resolveAssistantId env argv) = false
    · exact Or.inr (Or.inr h3)
    exfalso
    have hb1 : argv.contains "--list" = false := by simpa using h1
    have hb2 : vapiListTruthy env.vapiList = false := by simpa using h2
    have hb3 : optTruthy (resolveAssistantId env argv) = true := by simpa using h3
    have hcond : (argv.contains "--list" || vapiListTruthy env.vapiList
        || !optTruthy (resolveAssistantId env argv)) = false := by
      rw [hb1, hb2, hb3]
      rfl
    unfold dispatch at hd
    rw [hk] at hd
    dsimp only at hd
    rw [if_neg hke, if_neg (fun hh => Bool.false_ne_true (hcond ▸ hh))] at hd
    split at hd
    · split at hd
      · split at hd <;> simp at hd
      · simp at hd
    · split at hd
      · split at hd
        · split at hd <;> simp at hd
        · simp at hd
      · split at hd
        · split at hd <;> simp at hd
        · simp at hd
  · intro hc
    unfold dispatch
    rw [hk]
    dsimp only
    rw [if_neg hke, if_pos ?_]
    rcases hc with h | h | h <;>
      simp only [h, Bool.true_or, Bool.or_true, Bool.not_false]

/-- C4 witness: a concrete invocation with `--list` present dispatches to
List, and the List request is a GET to the singular `/assistant` path. -/
theorem list_dispatch_iff_witness :
    resolveApiKey (Env.mk (some "k") none (some "aid") none) ["main.py", "--list"] = some "k" ∧
    ((dispatch (Env.mk (some "k") none (some "aid") none) ["main.py", "--list"]
        = Op.runList "k" (resolveApiUrl (Env.mk (some "k") none (some "aid") none)) ↔
      (List.contains ["main.py", "--list"] "--list" = true ∨
       vapiListTruthy (Env.mk (some "k") none (some "aid") none).vapiList = true ∨
       optTruthy (resolveAssistantId (Env.mk (some "k") none (some "aid") none)
         ["main.py", "--list"]) = false)) ∧
    (list_assistants "k" (resolveApiUrl (Env.mk (some "k") none (some "aid") none))
        (Response.mk 200 "" (Json.arr []))).requests
      = [listRequest "k" (resolveApiUrl (Env.mk (some "k") none (some "aid") none))] ∧
    (listRequest "k" (resolveApiUrl (Env.mk (some "k") none (some "aid") none))).method
      = Method.get ∧
    (listRequest "k" (resolveApiUrl (Env.mk (some "k") none (some "aid") none))).url
      = rstripSlash (resolveApiUrl (Env.mk (some "k") none (some "aid") none)) ++ "/assistant") :=
  ⟨rfl, list_dispatch_iff (Env.mk (some "k") none (some "aid") none) ["main.py", "--list"]
    (Response.mk 200 "" (Json.arr [])) "k" rfl (by decide)⟩

/-- C8: on a 200 Get response whose body is an object and whose resolved
`messagePlan` is an object (the empty one when the field is absent): if
`idleMessages` is absent or the empty sequence, the output is the detail
header block followed by the "no idle messages configured" notice and the
configured-detail header never appears; if `idleMessages` is a non-empty
sequence, the output is the detail header block followed by the
message list, the idle timeout, and the max spoken count, and the notice
never appears. -/
theorem get_idle_display (api_key api_url assistant_id : String) (resp : Response)
    (fs mfs : List (String × Json))
    (hs : resp.status = 200) (hj : resp.json = Json.obj fs)
    (hmp : messagePlanOf fs = Json.obj mfs) :
    ((lookupField mfs "idleMessages" = none ∨
      lookupField mfs "idleMessages" = some (Json.arr [])) →
      (get_assistant api_key api_url assistant_id resp).output
          = detailBaseLines fs ++ ["\n⚠️  No idle messages configured"] ∧
      "\nIdle Messages Configuration:" ∉ (get_assistant api_key api_url assistant_id resp).output) ∧
    (∀ m ms, lookupField mfs "idleMessages" = some (Json.arr (m :: ms)) →
      (get_assistant api_key api_url assistant_id resp).output
          = detailBaseLines fs ++
            ["\nIdle Messages Configuration:",
             "  Messages: " ++ pyStr (Json.arr (m :: ms)),
             "  Timeout: " ++ pyStr ((lookupField mfs "idleTimeoutSeconds").getD Json.null)
               ++ " seconds",
             "  Max Count: " ++ pyStr ((lookupField mfs "idleMessageMaxSpokenCount").getD Json.null)] ∧
      "\n⚠️  No idle messages configured" ∉ (get_assistant api_key api_url assistant_id resp).output) := by
  constructor
  · intro hN
    have hfalse : pyTruthy ((lookupField mfs "idleMessages").getD Json.null) = false := by
      rcases hN with h | h <;> rw [h] <;> rfl
    have hout : (get_assistant api_key api_url assistant_id resp).output
        = detailBaseLines fs ++ ["\n⚠️  No idle messages configured"] := by
      unfold get_assistant
      rw [if_neg (by simp [hs]), hj]
      dsimp only
      rw [hmp]
      dsimp only
      rw [if_neg (fun hh => Bool.false_ne_true (hfalse ▸ hh))]
      rfl
    refine ⟨hout, ?_⟩
    rw [hout]
    intro hmem
    simp only [detailBaseLines, List.cons_append, List.nil_append, List.mem_cons,
      List.not_mem_nil, or_false] at hmem
    rcases hmem with h | h | h | h | h
    · exact absurd h (by decide)
    · exact append_ne_of_head "Name: " _ _ 'N' '\n' _ _ rfl rfl (by decide) h.symm
    · exact append_ne_of_head "ID: " _ _ 'I' '\n' _ _ rfl rfl (by decide) h.symm
    · rw [string_append_assoc] at h
      exact append_ne_of_head "Silence Timeout: " _ _ 'S' '\n' _ _ rfl rfl (by decide) h.symm
    · exact absurd h (by decide)
  · intro m ms hT
    have htrue : pyTruthy ((lookupField mfs "idleMessages").getD Json.null) = true := by
      rw [hT]
      rfl
    have hout : (get_assistant api_key api_url assistant_id resp).output
        = detailBaseLines fs ++
            ["\nIdle Messages Configuration:",
             "  Messages: " ++ pyStr (Json.arr (m :: ms)),
             "  Timeout: " ++ pyStr ((lookupField mfs "idleTimeoutSeconds").getD Json.null)
               ++ " seconds",
             "  Max Count: " ++ pyStr ((lookupField mfs "idleMessageMaxSpokenCount").getD Json.null)] := by
      unfold get_assistant
      rw [if_neg (by simp [hs]), hj]
      dsimp only
      rw [hmp]
      dsimp only
      rw [if_pos htrue, hT]
      rfl
    refine ⟨hout, ?_⟩
    rw [hout]
    intro hmem
    simp only [detailBaseLines, List.cons_append, List.nil_append, List.mem_cons,
      List.not_mem_nil, or_false] at hmem
    rcases hmem with h | h | h | h | h | h | h | h
    · exact absurd h (by decide)
    · exact append_ne_of_head "Name: " _ _ 'N' '\n' _ _ rfl rfl (by decide) h.symm
    · exact append_ne_of_head "ID: " _ _ 'I' '\n' _ _ rfl rfl (by decide) h.symm
    · rw [string_append_assoc] at h
      exact append_ne_of_head "Silence Timeout: " _ _ 'S' '\n' _ _ rfl rfl (by decide) h.symm
    · exact absurd h (by decide)
    · exact append_ne_of_head "  Messages: " _ _ ' ' '\n' _ _ rfl rfl (by decide) h.symm
    · rw [string_append_assoc] at h
      exact append_ne_of_head "  Timeout: " _ _ ' ' '\n' _ _ rfl rfl (by decide) h.symm
    · exact append_ne_of_head "  Max Count: " _ _ ' ' '\n' _ _ rfl rfl (by decide) h.symm

/-- C8 witness: a concrete 200 response with one idle message prints the
configured-detail block and not the notice. -/
theorem get_idle_display_witness :
    (Response.mk 200 "" (Json.obj [("messagePlan",
        Json.obj [("idleMessages", Json.arr [Json.str "hey"])])])).status = 200 ∧
    ((get_assistant "k" "u" "a" (Response.mk 200 "" (Json.obj [("messagePlan",
          Json.obj [("idleMessages", Json.arr [Json.str "hey"])])]))).output
        = detailBaseLines [("messagePlan", Json.obj [("idleMessages", Json.arr [Json.str "hey"])])] ++
            ["\nIdle Messages Configuration:",
             "  Messages: " ++ pyStr (Json.arr (Json.str "hey" :: [])),
             "  Timeout: " ++ pyStr ((lookupField [("idleMessages", Json.arr [Json.str "hey"])]
                 "idleTimeoutSeconds").getD Json.null) ++ " seconds",
             "  Max Count: " ++ pyStr ((lookupField [("idleMessages", Json.arr [Json.str "hey"])]
                 "idleMessageMaxSpokenCount").getD Json.null)] ∧
      "\n⚠️  No idle messages configured" ∉ (get_assistant "k" "u" "a" (Response.mk 200 ""
        (Json.obj [("messagePlan", Json.obj [("idleMessages", Json.arr [Json.str "hey"])])]))).output) :=
  ⟨rfl, (get_idle_display "k" "u" "a"
      (Response.mk 200 "" (Json.obj [("messagePlan",
        Json.obj [("idleMessages", Json.arr [Json.str "hey"])])]))
      [("messagePlan", Json.obj [("idleMessages", Json.arr [Json.str "hey"])])]
      [("idleMessages", Json.arr [Json.str "hey"])]
      rfl rfl rfl).2 (Json.str "hey") [] rfl⟩

/-- Inversion: a List dispatch can only arise from a resolved, non-empty
api key, which is the key it carries. -/
theorem dispatch_runList_key (env : Env) (argv : List String) (k u : String)
    (h : dispatch env argv = Op.runList k u) :
    resolveApiKey env argv = some k ∧ k ≠ "" := by
  unfold dispatch at h
  rcases hk : resolveApiKey env argv with _ | key <;> rw [hk] at h <;> dsimp only at h
  · simp at h
  · split at h
    · simp at h
    next hke =>
      split at h
      · injection h with h1 h2
        subst h1
        exact ⟨rfl, hke⟩
      · split at h
        · split at h
          · split at h <;> simp at h
          · simp at h
        · split at h
          · split at h
            · split at h <;> simp at h
            · simp at h
          · split at h
            · split at h <;> simp at h
            · simp at h

/-- Inversion: a Get dispatch can only arise from a resolved, non-empty
api key, which is the key it carries. -/
theorem dispatch_runGet_key (env : Env) (argv : List String) (k u aid : String)
    (h : dispatch env argv = Op.runGet k u aid) :
    resolveApiKey env argv = some k ∧ k ≠ "" := by
  unfold dispatch at h
  rcases hk : resolveApiKey env argv with _ | key <;> rw [hk] at h <;> dsimp only at h
  · simp at h
  · split at h
    · simp at h
    next hke =>
      split at h
      · simp at h
      · split at h
        · split at h
          · split at h
            · simp at h
            · injection h with h1 h2 h3
              subst h1
              exact ⟨rfl, hke⟩
          · simp at h
        · split at h
          · split at h
            · split at h <;> simp at h
            · simp at h
          · split at h
            · split at h
              · simp at h
              · injection h with h1 h2 h3
                subst h1
                exact ⟨rfl, hke⟩
            · simp at h

/-- Inversion: an UpdateIdle dispatch can only arise from a resolved,
non-empty api key, which is the key it carries. -/
theorem dispatch_runUpdateIdle_key (env : Env) (argv : List String) (k u aid : String)
    (h : dispatch env argv = Op.runUpdateIdle k u aid) :
    resolveApiKey env argv = some k ∧ k ≠ "" := by
  unfold dispatch at h
  rcases hk : resolveApiKey env argv with _ | key <;> rw [hk] at h <;> dsimp only at h
  · simp at h
  · split at h
    · simp at h
    next hke =>
      split at h
      · simp at h
      · split at h
        · split at h
          · split at h <;> simp at h
          · simp at h
        · split at h
          · split at h
            · split at h
              · simp at h
              · injection h with h1 h2 h3
                subst h1
                exact ⟨rfl, hke⟩
            · simp at h
          · split at h
            · split at h <;> simp at h
            · simp at h

/-- C9: every request a run issues carries the `Authorization: Bearer`
header built from the resolved api key, and a request is only ever issued
when the api key resolves to a non-empty value. -/
theorem all_requests_bear_token (env : Env) (argv : List String) (resp : Response)
    (req : Request) (h : req ∈ (mainRun env argv resp).requests) :
    ∃ k, resolveApiKey env argv = some k ∧ k ≠ "" ∧
      ("Authorization", "Bearer " ++ k) ∈ req.headers := by
  unfold mainRun at h
  cases hd : dispatch env argv <;> rw [hd] at h <;> dsimp only at h
  case noKey => simp [Outcome.requests] at h
  case missingIdGet => simp [Outcome.requests] at h
  case missingIdUpdate => simp [Outcome.requests] at h
  case usageOnly => simp [Outcome.requests] at h
  case runList k u =>
    obtain ⟨hk, hke⟩ := dispatch_runList_key env argv k u hd
    rw [list_assistants_requests] at h
    simp only [List.mem_singleton] at h
    subst h
    exact ⟨k, hk, hke, by simp [listRequest]⟩
  case runGet k u aid =>
    obtain ⟨hk, hke⟩ := dispatch_runGet_key env argv k u aid hd
    rw [get_assistant_requests] at h
    simp only [List.mem_singleton] at h
    subst h
    exact ⟨k, hk, hke, by simp [getRequest]⟩
  case runUpdateIdle k u aid =>
    obtain ⟨hk, hke⟩ := dispatch_runUpdateIdle_key env argv k u aid hd
    rw [update_requests] at h
    simp only [List.mem_singleton] at h
    subst h
    exact ⟨k, hk, hke, by simp [updateRequest]⟩

/-- C9 witness: a concrete run issues the List GET, and it carries the
bearer header built from the resolved key. -/
theorem all_requests_bear_token_witness :
    listRequest "k" "https://api.vapi.ai" ∈ (mainRun (Env.mk (some "k") none none none)
      ["main.py"] (Response.mk 200 "" (Json.arr []))).requests ∧
    ∃ k, resolveApiKey (Env.mk (some "k") none none none) ["main.py"] = some k ∧ k ≠ "" ∧
      ("Authorization", "Bearer " ++ k) ∈ (listRequest "k" "https://api.vapi.ai").headers := by
  have hmem : listRequest "k" "https://api.vapi.ai" ∈ (mainRun (Env.mk (some "k") none none none)
      ["main.py"] (Response.mk 200 "" (Json.arr []))).requests := by
    rw [show (mainRun (Env.mk (some "k") none none none) ["main.py"]
        (Response.mk 200 "" (Json.arr []))).requests
      = [listRequest "k" "https://api.vapi.ai"] from rfl]
    exact List.mem_singleton.mpr rfl
  exact ⟨hmem, all_requests_bear_token (Env.mk (some "k") none none none) ["main.py"]
    (Response.mk 200 "" (Json.arr [])) (listRequest "k" "https://api.vapi.ai") hmem⟩

end VapiIdle
